import Mathlib

/-!
Shallow embedding of the session-scoped workflow reminder scheduler
(`BeadsWorkflowReminderHook` in `amplifier_module_tool_beads/hooks.py`),
together with the `_run_bd` subprocess wrapper it relies on.

The external world seen by one `on_provider_request` call (availability of
the `bd` binary, the outcome of the subprocess invocation, and the result of
parsing its output as JSON) is modelled by an explicit environment value,
so the handler becomes a pure function from environment and state to a
hook result and a successor state.
-/

/-- A parsed issue record. The source reads `issue.get("id", "?")` and
`issue.get("title", "Untitled")`, so both fields may be absent. -/
structure Issue where
  id : Option String := none
  title : Option String := none
deriving DecidableEq, Repr

/-- The JSON value produced by `json.loads` on the `bd list` output:
either a top-level list of issues, or a dict whose `"issues"` key may be
absent (`list_data.get("issues", [])`). -/
inductive ListData where
  | jsonList (items : List Issue)
  | jsonDict (issuesField : Option (List Issue))
deriving DecidableEq, Repr

/-- `issues = list_data if isinstance(list_data, list) else list_data.get("issues", [])`. -/
def extractIssues : ListData → List Issue
  | ListData.jsonList items => items
  | ListData.jsonDict f => f.getD []

/-- Outcome of the `subprocess.run` call inside `_run_bd`: the process
completed with a return code and output streams, it hit the 10-second
timeout (`subprocess.TimeoutExpired`), or it raised some other exception. -/
inductive BdOutcome where
  | completed (returncode : Int) (stdout : String) (stderr : String)
  | timedOut
  | raised (message : String)
deriving DecidableEq, Repr

/-- `_run_bd`: returns `(success, output)`; a timeout or exception is
absorbed into a `(False, message)` result, never re-raised. -/
def run_bd : BdOutcome → Bool × String
  | BdOutcome.completed rc out err =>
      if rc = 0 then (true, out.trim)
      else (false, if err.trim = "" then out.trim else err.trim)
  | BdOutcome.timedOut => (false, "Command timed out")
  | BdOutcome.raised msg => (false, msg)

/-- External environment observed by a single `on_provider_request` call:
whether `bd` is on the PATH (`_bd_available`), the outcome of the
`bd list --status in_progress` subprocess, and the result of
`json.loads` on its output (`none` models a `json.JSONDecodeError`). -/
structure Env where
  bdAvailable : Bool
  bd : BdOutcome
  parsed : Option ListData
deriving DecidableEq, Repr

/-- The hook configuration dict, restricted to the keys this code ever
reads, plus `max_displayed_items`, which the spec lists as a recognized
option; a `none` field models an absent key, so `config.get(k, d)`
becomes `Option.getD`. -/
structure Config where
  enabled : Option Bool := none
  priority : Option Int := none
  recent_tool_threshold : Option Int := none
  reminder_interval : Option Int := none
  max_displayed_items : Option Int := none
deriving DecidableEq, Repr

/-- The mutable state of one `BeadsWorkflowReminderHook` instance, with the
configuration captured at construction. -/
structure ReminderState where
  enabled : Bool
  priority : Int
  recent_tool_threshold : Nat
  reminder_interval : Int
  beads_dir : Option String
  recent_tools : List String
  tool_calls_since_reminder : Nat
  beads_used_this_session : Bool
deriving DecidableEq, Repr

/-- `BeadsWorkflowReminderHook.__init__`. The only way construction can
fail is `deque(maxlen=...)` rejecting a negative maxlen with a
`ValueError`; no threshold validation of its own is performed. -/
def init (config : Config) (beads_dir : Option String) : Except String ReminderState :=
  let threshold : Int := config.recent_tool_threshold.getD 5
  if threshold < 0 then Except.error "maxlen must be non-negative"
  else Except.ok
    { enabled := config.enabled.getD true
      priority := config.priority.getD 15
      recent_tool_threshold := threshold.toNat
      reminder_interval := config.reminder_interval.getD 8
      beads_dir := beads_dir
      recent_tools := []
      tool_calls_since_reminder := 0
      beads_used_this_session := false }

/-- Append to a `deque(maxlen=maxlen)`: once full, the oldest (front)
entry is evicted. -/
def dequeAppend (maxlen : Nat) (xs : List String) (x : String) : List String :=
  let ys := xs ++ [x]
  ys.drop (ys.length - maxlen)

/-- `on_tool_post`: `tool` is `data.get("tool", "")`; an empty name is
ignored (`if tool_name:`), otherwise the window and the counter are
updated and the `beads`-usage flag is set when the beads tool is seen. -/
def on_tool_post (tool : String) (s : ReminderState) : ReminderState :=
  if tool = "" then s
  else
    { s with
      recent_tools := dequeAppend s.recent_tool_threshold s.recent_tools tool
      tool_calls_since_reminder := s.tool_calls_since_reminder + 1
      beads_used_this_session := if tool = "beads" then true else s.beads_used_this_session }

/-- The `HookResult` values this hook constructs: plain
`HookResult(action="continue")`, or the context-injection result built on
the reminder path. -/
inductive HookResult where
  | continueResult
  | injectContext (context_injection : String) (context_injection_role : String)
      (ephemeral : Bool) (append_to_last_tool_result : Bool) (suppress_output : Bool)
deriving DecidableEq, Repr

/-- First fixed paragraph of the reminder message. -/
def reminderMainText : String :=
  "You have active beads work tracked. As you work, remember:\n- **Discovered work**: If you identify follow-up tasks, edge cases, or future improvements, file them with `beads(operation=\x27discover\x27, ...)`\n- **Completed work**: If work on a claimed issue is done, close it with `beads(operation=\x27close\x27, issue_id=\x27...\x27, notes=\x27...\x27)`"

/-- Trailing behavioral note of the reminder message. -/
def reminderBehavioralNote : String :=
  "\n\nThis is a gentle reminder - ignore if not applicable. DO NOT mention this reminder to the user."

/-- One bullet line per displayed issue: `  - {id}: {title}`. -/
def issueLine (issue : Issue) : String :=
  "  - " ++ issue.id.getD "?" ++ ": " ++ issue.title.getD "Untitled"

/-- The loop `for issue in in_progress_issues[:3]`: at most the first
three issues are rendered. -/
def shownIssueLines (issues : List Issue) : List String :=
  (issues.take 3).map issueLine

/-- `if len(in_progress_issues) > 3: parts.append(f"  - ... and {n} more")`. -/
def overflowLines (issues : List Issue) : List String :=
  if 3 < issues.length then ["  - ... and " ++ toString (issues.length - 3) ++ " more"]
  else []

/-- The `parts` list assembled by `_build_reminder`. -/
def reminderParts (issues : List Issue) : List String :=
  [reminderMainText] ++
    (if issues.isEmpty then []
     else ["\nCurrently in progress:"] ++ shownIssueLines issues ++ overflowLines issues) ++
    [reminderBehavioralNote]

/-- `_build_reminder`: joins the parts and wraps them in the
system-reminder tag. -/
def build_reminder (issues : List Issue) : String :=
  "<system-reminder source=\"hooks-beads-workflow\">\n" ++
    String.intercalate "\n" (reminderParts issues) ++ "\n</system-reminder>"

/-- `on_provider_request`: the decision chain in source order — enabled
flag, reminder-interval throttle, recent `beads` use, `bd` availability,
subprocess success, JSON parse, empty issue list — and on the remaining
path the counter reset and the context-injection result. -/
def on_provider_request (env : Env) (s : ReminderState) : HookResult × ReminderState :=
  if !s.enabled then (HookResult.continueResult, s)
  else if (s.tool_calls_since_reminder : Int) < s.reminder_interval then
    (HookResult.continueResult, s)
  else if s.recent_tools.contains "beads" then (HookResult.continueResult, s)
  else if !env.bdAvailable then (HookResult.continueResult, s)
  else if (run_bd env.bd).1 = false then (HookResult.continueResult, s)
  else
    match env.parsed with
    | none => (HookResult.continueResult, s)
    | some list_data =>
      let issues := extractIssues list_data
      if issues.isEmpty then (HookResult.continueResult, s)
      else
        (HookResult.injectContext (build_reminder issues) "user" true true true,
         { s with tool_calls_since_reminder := 0 })

/-- Does a hook result carry a reminder injection? -/
def isRemind : HookResult → Bool
  | HookResult.continueResult => false
  | HookResult.injectContext _ _ _ _ _ => true

/-- An event delivered to the hook: a completed tool call (carrying the
`"tool"` field of the event data, `""` when absent) or a provider request
together with the external environment it observes. -/
inductive Event where
  | toolPost (tool : String)
  | providerRequest (env : Env)
deriving DecidableEq, Repr

/-- Number of tool-completion events in a trace. -/
def countToolPosts : List Event → Nat
  | [] => 0
  | Event.toolPost _ :: es => countToolPosts es + 1
  | Event.providerRequest _ :: es => countToolPosts es

/-- Run a trace of events, collecting the decision of every provider
request in order. -/
def runDecisions : ReminderState → List Event → List HookResult
  | _, [] => []
  | s, Event.toolPost t :: es => runDecisions (on_tool_post t s) es
  | s, Event.providerRequest env :: es =>
      (on_provider_request env s).1 :: runDecisions (on_provider_request env s).2 es

/-- Fold a list of completed tool calls into the state. -/
def runTools (s : ReminderState) (names : List String) : ReminderState :=
  names.foldl (fun a t => on_tool_post t a) s

/-- Modelled from the spec: the most recent `n` elements of `l`, in order
— the contents the spec assigns to the FIFO window. Stated from the
spec's words for comparison with the deque semantics of the source. -/
def mostRecent {α : Type} (n : Nat) (l : List α) : List α :=
  l.drop (l.length - n)

/-- A freshly constructed scheduler state with the default
configuration. -/
def sEight : ReminderState :=
  { enabled := true, priority := 15, recent_tool_threshold := 5, reminder_interval := 8,
    beads_dir := none, recent_tools := [], tool_calls_since_reminder := 0,
    beads_used_this_session := false }

/-- The state constructed from the config `{reminder_interval: 0}`. -/
def sInterval0 : ReminderState :=
  { enabled := true, priority := 15, recent_tool_threshold := 5, reminder_interval := 0,
    beads_dir := none, recent_tools := [], tool_calls_since_reminder := 0,
    beads_used_this_session := false }

/-- One in-progress issue, as in Scenario A of the spec. -/
def oneIssue : List Issue := [{ id := some "x-1", title := some "Fix bug" }]

/-- Four in-progress issues, one more than the display cap. -/
def issuesFour : List Issue :=
  [{ id := some "b-1", title := some "One" }, { id := some "b-2", title := some "Two" },
   { id := some "b-3", title := some "Three" }, { id := some "b-4", title := some "Four" }]

/-- Healthy external world reporting one in-progress issue. -/
def envOne : Env :=
  { bdAvailable := true, bd := BdOutcome.completed 0 "[]" "",
    parsed := some (ListData.jsonList oneIssue) }

/-- Healthy external world reporting four in-progress issues. -/
def envFour : Env :=
  { bdAvailable := true, bd := BdOutcome.completed 0 "[]" "",
    parsed := some (ListData.jsonList issuesFour) }

/-- External world in which the `bd list` subprocess hits its timeout. -/
def envTimeout : Env :=
  { bdAvailable := true, bd := BdOutcome.timedOut, parsed := none }

/-- A tool-call sequence touching the window: one event with no tool name,
one `beads` call, and enough other calls to wrap the window. -/
def toolSeq : List String := ["read", "edit", "", "grep", "beads", "bash", "write", "run"]

/-- The window contents never exceed the capacity. -/
lemma mostRecent_length {α : Type} (n : Nat) (l : List α) : (mostRecent n l).length ≤ n := by
  simp only [mostRecent, List.length_drop]
  omega

/-- A list short enough for the capacity is kept whole. -/
lemma mostRecent_of_le {α : Type} (n : Nat) (l : List α) (h : l.length ≤ n) :
    mostRecent n l = l := by
  simp [mostRecent, Nat.sub_eq_zero_of_le h]

/-- Truncating to the most recent `n`, appending, and truncating again is
the same as appending and truncating once. -/
lemma mostRecent_append_mostRecent {α : Type} (n : Nat) (l m : List α) :
    mostRecent n (mostRecent n l ++ m) = mostRecent n (l ++ m) := by
  rcases Nat.le_total l.length n with h | h
  · rw [mostRecent_of_le n l h]
  · unfold mostRecent
    rw [List.drop_append_eq_append_drop, List.drop_append_eq_append_drop,
      List.drop_drop]
    congr 1
    · congr 1
      simp only [List.length_append, List.length_drop]
      omega
    · congr 1
      simp only [List.length_append, List.length_drop]
      omega

/-- Appending to the bounded deque keeps exactly the most recent
`maxlen` entries. -/
lemma dequeAppend_eq_mostRecent (maxlen : Nat) (xs : List String) (x : String) :
    dequeAppend maxlen xs x = mostRecent maxlen (xs ++ [x]) := rfl

/-- While the counter is below the interval, the request handler skips
and leaves the state alone, whatever the environment does. -/
lemma low_counter_skip (env : Env) (s : ReminderState)
    (h : (s.tool_calls_since_reminder : Int) < s.reminder_interval) :
    on_provider_request env s = (HookResult.continueResult, s) := by
  by_cases he : s.enabled
  · simp [on_provider_request, he, h]
  · simp [on_provider_request, he]

/-- The request handler either skips with the state unchanged, or reminds
with the issues extracted from the parsed query output and the counter
reset to zero. -/
lemma opr_cases (env : Env) (s : ReminderState) :
    on_provider_request env s = (HookResult.continueResult, s) ∨
    ∃ ld, env.parsed = some ld ∧ (extractIssues ld).isEmpty = false ∧
      on_provider_request env s =
        (HookResult.injectContext (build_reminder (extractIssues ld)) "user" true true true,
         { s with tool_calls_since_reminder := 0 }) := by
  unfold on_provider_request
  split
  · exact Or.inl rfl
  split
  · exact Or.inl rfl
  split
  · exact Or.inl rfl
  split
  · exact Or.inl rfl
  split
  · exact Or.inl rfl
  split
  · exact Or.inl rfl
  next ld heq =>
    dsimp only
    split
    · exact Or.inl rfl
    · next hne =>
      refine Or.inr ⟨ld, heq, ?_, rfl⟩
      simpa using hne

/-- Tool completion never changes the configured interval. -/
lemma on_tool_post_interval (t : String) (s : ReminderState) :
    (on_tool_post t s).reminder_interval = s.reminder_interval := by
  unfold on_tool_post
  split <;> rfl

/-- Tool completion never changes the configured window capacity. -/
lemma on_tool_post_threshold (t : String) (s : ReminderState) :
    (on_tool_post t s).recent_tool_threshold = s.recent_tool_threshold := by
  unfold on_tool_post
  split <;> rfl

/-- Tool completion raises the counter by at most one. -/
lemma on_tool_post_counter_le (t : String) (s : ReminderState) :
    (on_tool_post t s).tool_calls_since_reminder ≤ s.tool_calls_since_reminder + 1 := by
  unfold on_tool_post
  split <;> simp

/-- If the tool completions in a trace cannot lift the counter to the
interval, no provider request in the trace reminds. -/
lemma no_remind_of_few_toolPosts :
    ∀ (evts : List Event) (s : ReminderState),
      (countToolPosts evts + s.tool_calls_since_reminder : Int) < s.reminder_interval →
      ∀ r ∈ runDecisions s evts, isRemind r = false := by
  intro evts
  induction evts with
  | nil => intro s h r hr; simp [runDecisions] at hr
  | cons e es ih =>
    intro s h r hr
    cases e with
    | toolPost t =>
      simp only [runDecisions] at hr
      refine ih (on_tool_post t s) ?_ r hr
      have h1 := on_tool_post_counter_le t s
      have h2 := on_tool_post_interval t s
      simp only [countToolPosts] at h
      rw [h2]
      push_cast at h
      omega
    | providerRequest env =>
      have hcnt : (s.tool_calls_since_reminder : Int) < s.reminder_interval := by
        simp only [countToolPosts] at h
        have : (0 : Int) ≤ countToolPosts es := Int.ofNat_nonneg _
        omega
      have hskip := low_counter_skip env s hcnt
      simp only [runDecisions, hskip] at hr
      rcases List.mem_cons.mp hr with hh | hh
      · subst hh; rfl
      · exact ih s (by simpa [countToolPosts] using h) r hh

/-- The window after a run of tool completions holds exactly the most
recent named tools, provided it started within its bound. -/
lemma runTools_recent :
    ∀ (names : List String) (s : ReminderState),
      s.recent_tools.length ≤ s.recent_tool_threshold →
      (runTools s names).recent_tools =
        mostRecent s.recent_tool_threshold
          (s.recent_tools ++ names.filter (fun t => t ≠ "")) := by
  intro names
  induction names with
  | nil =>
    intro s h
    simp [runTools, mostRecent_of_le _ _ h]
  | cons t ts ih =>
    intro s h
    have hstep : runTools s (t :: ts) = runTools (on_tool_post t s) ts := by
      simp [runTools]
    by_cases ht : t = ""
    · subst ht
      have hid : on_tool_post "" s = s := by simp [on_tool_post]
      rw [hstep, hid]
      simpa using ih s h
    · have hpost : on_tool_post t s =
          { s with
            recent_tools := dequeAppend s.recent_tool_threshold s.recent_tools t
            tool_calls_since_reminder := s.tool_calls_since_reminder + 1
            beads_used_this_session := if t = "beads" then true else s.beads_used_this_session } := by
        simp [on_tool_post, ht]
      have hlen : (dequeAppend s.recent_tool_threshold s.recent_tools t).length ≤
          s.recent_tool_threshold := by
        rw [dequeAppend_eq_mostRecent]
        exact mostRecent_length _ _
      rw [hstep, hpost]
      have hrec := ih { s with
            recent_tools := dequeAppend s.recent_tool_threshold s.recent_tools t
            tool_calls_since_reminder := s.tool_calls_since_reminder + 1
            beads_used_this_session := if t = "beads" then true else s.beads_used_this_session }
          hlen
      simp only at hrec
      rw [hrec, dequeAppend_eq_mostRecent, mostRecent_append_mostRecent]
      simp [List.filter_cons, ht]

/-- A recent `beads` call forces a skip with the state unchanged. -/
lemma beads_recent_skip (env : Env) (s : ReminderState) (h : "beads" ∈ s.recent_tools) :
    on_provider_request env s = (HookResult.continueResult, s) := by
  have hc : s.recent_tools.contains "beads" = true := by
    simp_all [List.elem_iff]
  by_cases he : s.enabled
  · rcases lt_or_le (s.tool_calls_since_reminder : Int) s.reminder_interval with hlt | hge
    · exact low_counter_skip env s hlt
    · simp [on_provider_request, he, hc, h, not_lt.mpr hge]
  · simp [on_provider_request, he]

/-- Any failed in-memory gate forces a skip with the state unchanged. -/
lemma gates_skip (env : Env) (s : ReminderState)
    (h : s.enabled = false ∨ (s.tool_calls_since_reminder : Int) < s.reminder_interval ∨
      "beads" ∈ s.recent_tools) :
    on_provider_request env s = (HookResult.continueResult, s) := by
  rcases h with h | h | h
  · simp [on_provider_request, h]
  · exact low_counter_skip env s h
  · exact beads_recent_skip env s h

/-- C1: Throttle — once `on_provider_request` returns a remind decision,
no provider request in any following trace containing fewer than
`reminder_interval` observed tool-call completions returns remind. -/
theorem reminder_throttle_no_refire_before_interval
    (s : ReminderState) (env : Env) (r : HookResult) (s' : ReminderState)
    (evts : List Event)
    (h1 : on_provider_request env s = (r, s'))
    (h2 : isRemind r = true)
    (h3 : (countToolPosts evts : Int) < s.reminder_interval) :
    ∀ d ∈ runDecisions s' evts, isRemind d = false := by
  rcases opr_cases env s with hc | ⟨ld, hp, hne, hc⟩
  · rw [h1] at hc
    have hr := congrArg Prod.fst hc
    simp at hr
    rw [hr] at h2
    simp [isRemind] at h2
  · rw [h1] at hc
    have hs := congrArg Prod.snd hc
    simp only at hs
    subst hs
    refine no_remind_of_few_toolPosts evts _ ?_
    simp only
    push_cast
    omega

/-- Witness for C1: after the remind fired from `sEight` with counter 8,
a trace with one further tool call yields only skip decisions. -/
theorem reminder_throttle_witness : isRemind HookResult.continueResult = false :=
  reminder_throttle_no_refire_before_interval
    { sEight with tool_calls_since_reminder := 8 } envOne
    (HookResult.injectContext (build_reminder oneIssue) "user" true true true)
    { sEight with tool_calls_since_reminder := 0 }
    [Event.toolPost "grep", Event.providerRequest envOne]
    rfl rfl (by decide) HookResult.continueResult (by decide)

/-- C2: Suppression by recent use — whenever `"beads"` appears anywhere in
the recent-tools window, `on_provider_request` skips and leaves the state
unchanged, for every external environment. -/
theorem recent_beads_use_suppresses_reminder (env : Env) (s : ReminderState)
    (h : "beads" ∈ s.recent_tools) :
    on_provider_request env s = (HookResult.continueResult, s) :=
  beads_recent_skip env s h

/-- Witness for C2: with `beads` in the window, an environment full of
active work still produces a skip. -/
theorem recent_beads_use_witness :
    on_provider_request envOne
      { sEight with recent_tools := ["edit", "beads", "bash"], tool_calls_since_reminder := 8 } =
    (HookResult.continueResult,
      { sEight with recent_tools := ["edit", "beads", "bash"], tool_calls_since_reminder := 8 }) :=
  recent_beads_use_suppresses_reminder envOne
    { sEight with recent_tools := ["edit", "beads", "bash"], tool_calls_since_reminder := 8 }
    (by decide)

/-- C3: Counter semantics — every completed tool call carrying a tool name
raises `tool_calls_since_reminder` by exactly 1 (an event without a tool
name leaves the state untouched), and `on_provider_request` resets the
counter to 0 on a remind decision and leaves it unchanged otherwise. -/
theorem counter_increment_and_reset_semantics (s : ReminderState) (tool : String) (env : Env) :
    (tool ≠ "" →
      (on_tool_post tool s).tool_calls_since_reminder = s.tool_calls_since_reminder + 1) ∧
    (tool = "" → on_tool_post tool s = s) ∧
    (isRemind (on_provider_request env s).1 = true →
      (on_provider_request env s).2.tool_calls_since_reminder = 0) ∧
    (isRemind (on_provider_request env s).1 = false →
      (on_provider_request env s).2.tool_calls_since_reminder = s.tool_calls_since_reminder) := by
  refine ⟨fun ht => ?_, fun ht => ?_, fun hr => ?_, fun hr => ?_⟩
  · simp [on_tool_post, ht]
  · simp [on_tool_post, ht]
  · rcases opr_cases env s with hc | ⟨ld, _, _, hc⟩
    · rw [hc] at hr; simp [isRemind] at hr
    · rw [hc]
  · rcases opr_cases env s with hc | ⟨ld, _, _, hc⟩
    · rw [hc]
    · rw [hc] at hr ⊢; simp [isRemind] at hr

/-- Witness for C3: a named tool call increments the counter by one, and a
remind decision resets it to zero. -/
theorem counter_semantics_witness :
    (on_tool_post "grep" sEight).tool_calls_since_reminder =
      sEight.tool_calls_since_reminder + 1 ∧
    (on_provider_request envOne
      { sEight with tool_calls_since_reminder := 8 }).2.tool_calls_since_reminder = 0 :=
  ⟨(counter_increment_and_reset_semantics sEight "grep" envOne).1 (by decide),
   (counter_increment_and_reset_semantics
      { sEight with tool_calls_since_reminder := 8 } "grep" envOne).2.2.1 rfl⟩

/-- C4: External-query failure absorbed — when all in-memory gates pass
but the tracker is unavailable, the subprocess fails or times out, or its
output fails to parse, `on_provider_request` returns a skip with the
state unchanged; the handler is total, so no exception escapes. -/
theorem external_query_failure_yields_skip (env : Env) (s : ReminderState)
    (henabled : s.enabled = true)
    (hdue : s.reminder_interval ≤ (s.tool_calls_since_reminder : Int))
    (hrecent : "beads" ∉ s.recent_tools)
    (hfail : env.bdAvailable = false ∨ (run_bd env.bd).1 = false ∨ env.parsed = none) :
    on_provider_request env s = (HookResult.continueResult, s) := by
  rcases hfail with hf | hf | hf
  · simp [on_provider_request, henabled, not_lt.mpr hdue, hrecent, hf]
  · simp [on_provider_request, henabled, not_lt.mpr hdue, hrecent, hf]
  · by_cases hb : env.bdAvailable
    · by_cases hrb : (run_bd env.bd).1 = false
      · simp [on_provider_request, henabled, not_lt.mpr hdue, hrecent, hb, hrb]
      · simp [on_provider_request, henabled, not_lt.mpr hdue, hrecent, hb, hrb, hf]
    · simp [on_provider_request, henabled, not_lt.mpr hdue, hrecent, hb]

/-- Witness for C4: with every in-memory gate passing and the subprocess
timing out, the decision is a skip. -/
theorem external_query_failure_witness :
    on_provider_request envTimeout { sEight with tool_calls_since_reminder := 8 } =
      (HookResult.continueResult, { sEight with tool_calls_since_reminder := 8 }) :=
  external_query_failure_yields_skip envTimeout
    { sEight with tool_calls_since_reminder := 8 } rfl (by decide) (by decide)
    (Or.inr (Or.inl rfl))

/-- C5: Window bound and order — after any sequence of tool completions
the window length never exceeds the threshold, and the window holds
exactly the most recent threshold tool names in call order (events
carrying no tool name contribute nothing). -/
theorem recent_tools_window_bound_and_contents (s : ReminderState) (names : List String)
    (h : s.recent_tools.length ≤ s.recent_tool_threshold) :
    (runTools s names).recent_tools.length ≤ s.recent_tool_threshold ∧
    (runTools s names).recent_tools =
      mostRecent s.recent_tool_threshold
        (s.recent_tools ++ names.filter (fun t => t ≠ "")) := by
  have hr := runTools_recent names s h
  exact ⟨by rw [hr]; exact mostRecent_length _ _, hr⟩

/-- Witness for C5: an eight-event sequence over a capacity-5 window. -/
theorem window_bound_witness :
    (runTools sEight toolSeq).recent_tools.length ≤ sEight.recent_tool_threshold ∧
    (runTools sEight toolSeq).recent_tools =
      mostRecent sEight.recent_tool_threshold
        (sEight.recent_tools ++ toolSeq.filter (fun t => t ≠ "")) :=
  recent_tools_window_bound_and_contents sEight toolSeq (by decide)

/-- C6: the code does not fail fast on misconfiguration — construction
with `reminder_interval = 0` (and likewise `recent_tool_threshold = 0`)
succeeds instead of raising a configuration error, and the resulting
scheduler immediately reminds with zero completed tool calls. -/
theorem misconfiguration_accepted_at_construction :
    init { reminder_interval := some 0 } none = Except.ok sInterval0 ∧
    init { recent_tool_threshold := some 0 } none =
      Except.ok { sInterval0 with recent_tool_threshold := 0, reminder_interval := 8 } ∧
    isRemind (on_provider_request envOne sInterval0).1 = true :=
  ⟨rfl, rfl, rfl⟩

/-- C7 counterexample: the display cap is not configurable — a config
carrying `max_displayed_items = 1` yields the very same constructed state
as one without it, and the remind decision fired from that state still
carries three rendered issues plus a `+1 more` line. -/
theorem display_cap_ignores_configured_limit :
    init { reminder_interval := some 0, max_displayed_items := some 1 } none =
      init { reminder_interval := some 0 } none ∧
    init { reminder_interval := some 0, max_displayed_items := some 1 } none =
      Except.ok sInterval0 ∧
    (on_provider_request envFour sInterval0).1 =
      HookResult.injectContext (build_reminder issuesFour) "user" true true true ∧
    shownIssueLines issuesFour =
      [issueLine { id := some "b-1", title := some "One" },
       issueLine { id := some "b-2", title := some "Two" },
       issueLine { id := some "b-3", title := some "Three" }] ∧
    overflowLines issuesFour = ["  - ... and " ++ toString 1 ++ " more"] :=
  ⟨rfl, rfl, rfl, rfl, rfl⟩

/-- C7 (amended): every remind decision carries the reminder rendered
from the issues the query returned, showing at most the first three with
a `+N more` line exactly when more than three are in progress; the limit
of 3 is fixed, not configurable. -/
theorem remind_payload_capped_at_three (env : Env) (s : ReminderState)
    (h : isRemind (on_provider_request env s).1 = true) :
    ∃ ld, env.parsed = some ld ∧
      (on_provider_request env s).1 =
        HookResult.injectContext (build_reminder (extractIssues ld)) "user" true true true ∧
      (shownIssueLines (extractIssues ld)).length = min 3 (extractIssues ld).length ∧
      ((extractIssues ld).length ≤ 3 → overflowLines (extractIssues ld) = []) ∧
      (3 < (extractIssues ld).length →
        overflowLines (extractIssues ld) =
          ["  - ... and " ++ toString ((extractIssues ld).length - 3) ++ " more"]) := by
  rcases opr_cases env s with hc | ⟨ld, hp, hne, hc⟩
  · rw [hc] at h; simp [isRemind] at h
  · refine ⟨ld, hp, by rw [hc], ?_, fun hle => ?_, fun hlt => ?_⟩
    · simp [shownIssueLines]
    · simp [overflowLines, not_lt.mpr hle]
    · simp [overflowLines, hlt]

/-- Witness for the amended C7: four in-progress issues produce a remind
whose payload shows three of them and one overflow line. -/
theorem remind_payload_witness :
    ∃ ld, envFour.parsed = some ld ∧
      (on_provider_request envFour sInterval0).1 =
        HookResult.injectContext (build_reminder (extractIssues ld)) "user" true true true ∧
      (shownIssueLines (extractIssues ld)).length = min 3 (extractIssues ld).length ∧
      ((extractIssues ld).length ≤ 3 → overflowLines (extractIssues ld) = []) ∧
      (3 < (extractIssues ld).length →
        overflowLines (extractIssues ld) =
          ["  - ... and " ++ toString ((extractIssues ld).length - 3) ++ " more"]) :=
  remind_payload_capped_at_three envFour sInterval0 rfl

/-- C8: the in-memory gates shield the external query — from any state in
which the hook is disabled, the throttle has not elapsed, or `beads` was
recently used, the decision is a skip with the state unchanged, and two
runs differing only in the external environment coincide entirely. -/
theorem in_memory_gates_shield_external_query (env env' : Env) (s : ReminderState)
    (h : s.enabled = false ∨ (s.tool_calls_since_reminder : Int) < s.reminder_interval ∨
      "beads" ∈ s.recent_tools) :
    on_provider_request env s = (HookResult.continueResult, s) ∧
    on_provider_request env s = on_provider_request env' s :=
  ⟨gates_skip env s h, (gates_skip env s h).trans (gates_skip env' s h).symm⟩

/-- Witness for C8: a below-threshold counter yields the same skip under
a healthy environment and under a timing-out one. -/
theorem gates_shield_witness :
    on_provider_request envOne { sEight with tool_calls_since_reminder := 3 } =
      (HookResult.continueResult, { sEight with tool_calls_since_reminder := 3 }) ∧
    on_provider_request envOne { sEight with tool_calls_since_reminder := 3 } =
      on_provider_request envTimeout { sEight with tool_calls_since_reminder := 3 } :=
  in_memory_gates_shield_external_query envOne envTimeout
    { sEight with tool_calls_since_reminder := 3 } (Or.inr (Or.inl (by decide)))

/-- C9: skip is side-effect free — a skip decision returns the state
exactly as it was, and the only mutation `on_provider_request` ever
performs is resetting the counter to zero on a remind decision. -/
theorem skip_leaves_state_unchanged (env : Env) (s : ReminderState) :
    ((on_provider_request env s).1 = HookResult.continueResult →
      (on_provider_request env s).2 = s) ∧
    ((on_provider_request env s).1 ≠ HookResult.continueResult →
      (on_provider_request env s).2 = { s with tool_calls_since_reminder := 0 }) := by
  rcases opr_cases env s with hc | ⟨ld, _, _, hc⟩
  · rw [hc]
    exact ⟨fun _ => rfl, fun hne => absurd rfl hne⟩
  · rw [hc]
    refine ⟨fun hcontra => ?_, fun _ => rfl⟩
    simp at hcontra

/-- Witness for C9: the skip produced under a timed-out query leaves the
state untouched. -/
theorem skip_unchanged_witness :
    (on_provider_request envTimeout sEight).2 = sEight :=
  (skip_leaves_state_unchanged envTimeout sEight).1 rfl

/-- C10: the `beads_used_this_session` flag is write-only — two states
identical except for the flag receive the same decision and the same
window and counter updates from `on_provider_request`. -/
theorem beads_used_flag_never_read (env : Env) (s : ReminderState) (b₁ b₂ : Bool) :
    (on_provider_request env { s with beads_used_this_session := b₁ }).1 =
      (on_provider_request env { s with beads_used_this_session := b₂ }).1 ∧
    (on_provider_request env { s with beads_used_this_session := b₁ }).2.recent_tools =
      (on_provider_request env { s with beads_used_this_session := b₂ }).2.recent_tools ∧
    (on_provider_request env { s with beads_used_this_session := b₁ }).2.tool_calls_since_reminder =
      (on_provider_request env { s with beads_used_this_session := b₂ }).2.tool_calls_since_reminder := by
  simp only [on_provider_request]
  split_ifs <;> try exact ⟨rfl, rfl, rfl⟩
  cases hp : env.parsed
  · exact ⟨rfl, rfl, rfl⟩
  · dsimp only
    split_ifs <;> exact ⟨rfl, rfl, rfl⟩
